import Mathlib

set_option maxRecDepth 8192

/-!
Verification of the leptos_config configuration resolver
(`src/leptos_config/src/lib.rs`).

The development shallowly embeds the resolver: strings are processed as
`List Char` (the source works on `&str` byte slices; all inputs of interest
are ASCII, where the two views coincide), fallible operations return
`Option`/`Except`, and a Rust panic is modelled as `Option.none`.
Components of this repository that are not part of the given source
(the `errors` module, and the third-party `config` crate driving layering
and deserialization) are modelled from the specification and marked as such
in their doc comments.
-/

namespace LeptosConfig

/-- Decidable equality for `Except`, needed to evaluate the embedded
fallible operations on concrete inputs. -/
instance instDecEqExcept {ε α : Type} [DecidableEq ε] [DecidableEq α] :
    DecidableEq (Except ε α) := fun x y =>
  match x, y with
  | Except.ok a, Except.ok b =>
    if h : a = b then isTrue (by rw [h])
    else isFalse (by intro hc; injection hc; contradiction)
  | Except.error a, Except.error b =>
    if h : a = b then isTrue (by rw [h])
    else isFalse (by intro hc; injection hc; contradiction)
  | Except.ok _, Except.error _ => isFalse (by intro hc; exact Except.noConfusion hc)
  | Except.error _, Except.ok _ => isFalse (by intro hc; exact Except.noConfusion hc)

/-! ## Generic character-list utilities (structural, kernel-computable) -/

/-- Whitespace test used by trimming (space, tab, carriage return, newline). -/
def isWhitespaceChar (c : Char) : Bool :=
  c == ' ' || c == '\t' || c == '\r' || c == '\n'

/-- Drop leading and trailing whitespace from a character list. -/
def trimList (cs : List Char) : List Char :=
  ((cs.dropWhile isWhitespaceChar).reverse.dropWhile isWhitespaceChar).reverse

/-- Split a character list on a separator character.  Mirrors splitting a
string into the pieces between occurrences of the separator. -/
def splitOnChar (sep : Char) : List Char → List (List Char)
  | [] => [[]]
  | c :: rest =>
    let r := splitOnChar sep rest
    if c == sep then [] :: r
    else
      match r with
      | [] => [[c]]
      | l :: ls => (c :: l) :: ls

/-- ASCII-lowercase a string (embedding of Rust `str::to_lowercase` on
ASCII input). -/
def lowerStr (s : String) : String :=
  String.mk (s.data.map Char.toLower)

/-- Parse a decimal natural number from a character list; `none` when the
list is empty or holds a non-digit. -/
def parseNatList (cs : List Char) : Option Nat :=
  if cs.isEmpty then none
  else if cs.all (fun c => c.isDigit) then
    some (cs.foldl (fun acc c => acc * 10 + (c.toNat - 48)) 0)
  else none

/-- Fuel-driven replace-all of a pattern by a replacement, scanning left to
right over non-overlapping occurrences (embedding of Rust `str::replace`).
The fuel is the length of the scanned list, which suffices because every
step consumes at least one character. -/
def replaceFuel (pat repl : List Char) : Nat → List Char → List Char
  | 0, cs => cs
  | _ + 1, [] => []
  | fuel + 1, c :: rest =>
    if !pat.isEmpty && pat.isPrefixOf (c :: rest) then
      repl ++ replaceFuel pat repl fuel ((c :: rest).drop pat.length)
    else
      c :: replaceFuel pat repl fuel rest

/-- Replace every non-overlapping occurrence of `pat` by `repl` in `cs`
(embedding of Rust `str::replace`). -/
def replaceList (pat repl cs : List Char) : List Char :=
  replaceFuel pat repl cs.length cs

/-! ## The Env enum and its four string-coercion paths (lib.rs lines 52-127) -/

/-- Embedding of `enum Env { PROD, DEV }` (lib.rs lines 52-56). -/
inductive Env where
  | PROD
  | DEV
deriving DecidableEq

/-- Embedding of `std::env::VarError` (absent or non-unicode variable). -/
inductive VarError where
  | notPresent
  | notUnicode
deriving DecidableEq

/-- Embedding of `impl FromStr for Env` (lib.rs lines 64-76): lowercase the
input, map the four recognized forms, and fall back to `DEV` — the error
type is `()` and is never produced. -/
def Env.from_str (input : String) : Except Unit Env :=
  if lowerStr input = "dev" then Except.ok Env.DEV
  else if lowerStr input = "development" then Except.ok Env.DEV
  else if lowerStr input = "prod" then Except.ok Env.PROD
  else if lowerStr input = "production" then Except.ok Env.PROD
  else Except.ok Env.DEV

/-- Embedding of `impl From<&str> for Env` (lib.rs lines 78-91): lowercase
the input, map the four recognized forms, and panic otherwise; the panic is
modelled as `none`. -/
def Env.from_ref_str (s : String) : Option Env :=
  if lowerStr s = "dev" then some Env.DEV
  else if lowerStr s = "development" then some Env.DEV
  else if lowerStr s = "prod" then some Env.PROD
  else if lowerStr s = "production" then some Env.PROD
  else none

/-- Embedding of `impl From<&Result<String, VarError>> for Env` (lib.rs
lines 92-110): on `Ok`, lowercase and map the four recognized forms,
panicking (modelled as `none`) on anything else; on `Err`, return `DEV`. -/
def Env.from_var_result (input : Except VarError String) : Option Env :=
  match input with
  | Except.ok s =>
    if lowerStr s = "dev" then some Env.DEV
    else if lowerStr s = "development" then some Env.DEV
    else if lowerStr s = "prod" then some Env.PROD
    else if lowerStr s = "production" then some Env.PROD
    else none
  | Except.error _ => some Env.DEV

/-- Embedding of `impl TryFrom<String> for Env` (lib.rs lines 112-127):
lowercase the input, map the four recognized forms, and otherwise return a
descriptive error built from the lowercased value. -/
def Env.try_from (s : String) : Except String Env :=
  if lowerStr s = "dev" then Except.ok Env.DEV
  else if lowerStr s = "development" then Except.ok Env.DEV
  else if lowerStr s = "prod" then Except.ok Env.PROD
  else if lowerStr s = "production" then Except.ok Env.PROD
  else Except.error (lowerStr s ++ " is not a supported environment. Use either `dev` or `production`.")

/-- Embedding of the serde-derived `Deserialize` for `Env` (lib.rs line 52):
an externally tagged unit variant deserializes from a string equal to the
exact variant name, and every other string is an unknown-variant error. -/
def Env.deserialize (s : String) : Except String Env :=
  if s = "PROD" then Except.ok Env.PROD
  else if s = "DEV" then Except.ok Env.DEV
  else Except.error ("unknown variant `" ++ s ++ "`, expected `PROD` or `DEV`")

/-! ## Typed options record (lib.rs lines 13-47) -/

/-- Modelled from the spec: a `host:port` pair (the standard library's
`std::net::SocketAddr` is not part of the given source). -/
structure SocketAddr where
  host : String
  port : Nat
deriving DecidableEq

/-- Modelled from the spec: parsing of a `host:port` pair from a string —
the text before the single colon is the host, the text after is a decimal
port below 65536. -/
def SocketAddr.parse (s : String) : Option SocketAddr :=
  match splitOnChar ':' s.data with
  | [h, p] =>
    match parseNatList p with
    | some n => if n < 65536 then some (SocketAddr.mk (String.mk h) n) else none
    | none => none
  | _ => none

/-- Embedding of `struct LeptosOptions` (lib.rs lines 21-47).  The
`#[builder(default = ...)]` attributes belong to the TypedBuilder derive
only; the serde `Deserialize` derive on this struct carries no
`#[serde(default)]`, so during deserialization every field is required. -/
structure LeptosOptions where
  output_name : String
  site_root : String
  site_pkg_dir : String
  env : Env
  site_address : SocketAddr
  reload_port : Nat
deriving DecidableEq

/-- Embedding of `struct ConfFile` (lib.rs lines 13-16). -/
structure ConfFile where
  leptos_options : LeptosOptions
deriving DecidableEq

/-- Modelled from the spec: the error taxonomy of the `errors` module
(declared in lib.rs line 1 but not part of the given source) — the document
could not be read, the section header was not found, incompatible layered
values, or a deserialization failure carrying a descriptive message. -/
inductive LeptosConfigError where
  | configNotFound
  | configSectionNotFound
  | mergeError
  | configError (msg : String)
deriving DecidableEq

/-! ## Section extractor (lib.rs lines 136-147) -/

/-- The regex pattern of lib.rs line 136, `(?m)^\[package.metadata.leptos\]`,
as a list of character matchers: `some c` is a literal character and `none`
is the regex metacharacter `.` (the two dots in the source are unescaped),
matching any character except a newline. -/
def headerPattern : List (Option Char) :=
  ("[package".data.map some) ++ [none] ++ ("metadata".data.map some)
    ++ [none] ++ ("leptos]".data.map some)

/-- Match a list of character matchers against the front of a character
list. -/
def matchesAt (pat : List (Option Char)) (cs : List Char) : Bool :=
  match pat, cs with
  | [], _ => true
  | _ :: _, [] => false
  | some p :: ps, c :: rest => (c == p) && matchesAt ps rest
  | none :: ps, c :: rest => (c != '\n') && matchesAt ps rest

/-- Position `i` starts a line: it is 0 or follows a newline character. -/
def isLineStart (cs : List Char) (i : Nat) : Bool :=
  match i with
  | 0 => true
  | j + 1 => cs.getD j ' ' == '\n'

/-- Embedding of `re.find(&text)` for the anchored multi-line pattern
(lib.rs line 137): the first position that starts a line and matches the
header pattern. -/
def findHeaderStart (cs : List Char) : Option Nat :=
  (List.range (cs.length + 1)).find? fun i =>
    isLineStart cs i && matchesAt headerPattern (cs.drop i)

/-- The literal header token replaced on lib.rs line 146. -/
def headerLiteral : String := "[package.metadata.leptos]"

/-- The canonical section name substituted on lib.rs line 146. -/
def sectionName : String := "[leptos_options]"

/-- Embedding of lib.rs lines 136-147: locate the first pattern match,
count the newlines before it, prepend that many newlines to the slice from
the match to end-of-document, replace the literal header token by the
canonical section name, and replace every hyphen by an underscore.  Returns
the preserved line count together with the rewritten text, or `none` when
the pattern does not occur. -/
def extractSection (text : String) : Option (Nat × String) :=
  match findHeaderStart text.data with
  | none => none
  | some start =>
    let newlines := (text.data.take start).count '\n'
    let input := List.replicate newlines '\n' ++ text.data.drop start
    let toml := replaceList headerLiteral.data sectionName.data input
    some (newlines, String.mk (toml.map fun c => if c = '-' then '_' else c))

/-- Following the claim's words, not the source: the first start-of-line
occurrence of the literal header string `[package.metadata.leptos]`. -/
def firstLiteralHeaderStart (cs : List Char) : Option Nat :=
  (List.range (cs.length + 1)).find? fun i =>
    isLineStart cs i && headerLiteral.data.isPrefixOf (cs.drop i)

/-! ## Layered source builder (lib.rs lines 148-155) -/

/-- Modelled from the spec: one `key = value` line of the rewritten section
becomes a key/value pair — text before the first `=` is the key, text after
it is the value (surrounding quotes stripped); lines without `=`, blank
keys and comment lines contribute nothing. -/
def splitFirstEq : List Char → Option (List Char × List Char)
  | [] => none
  | c :: rest =>
    if c == '=' then some ([], rest)
    else
      match splitFirstEq rest with
      | some kv => some (c :: kv.1, kv.2)
      | none => none

/-- Strip one pair of surrounding double quotes, when present. -/
def stripQuotesL (cs : List Char) : List Char :=
  match cs with
  | '\"' :: rest => if rest.getLast? = some '\"' then rest.dropLast else cs
  | _ => cs

/-- Parse one line of the section into a key/value pair, per the grammar
described with `splitFirstEq`. -/
def parseKVLine (line : List Char) : Option (String × String) :=
  match splitFirstEq line with
  | none => none
  | some kv =>
    let key := trimList kv.1
    if key.isEmpty then none
    else if key.head? = some '#' then none
    else some (String.mk key, String.mk (stripQuotesL (trimList kv.2)))

/-- Drop lines up to and including the `[leptos_options]` header line. -/
def dropToHeader : List (List Char) → List (List Char)
  | [] => []
  | l :: rest => if trimList l = sectionName.data then rest else dropToHeader rest

/-- Take lines up to the next table header (a line whose trimmed text
starts with an opening bracket). -/
def takeSection : List (List Char) → List (List Char)
  | [] => []
  | l :: rest =>
    if (trimList l).head? = some '[' then [] else l :: takeSection rest

/-- Modelled from the spec: the base configuration layer — the flat
key/value space read from the `[leptos_options]` section of the rewritten
text (the `config` crate's TOML file source is not code of this
repository; the spec's Layered Source Builder describes a flat single-level
space keyed by normalized field name). -/
def sectionKVs (toml : String) : List (String × String) :=
  (takeSection (dropToHeader (splitOnChar '\n' toml.data))).filterMap parseKVLine

/-- Modelled from the spec: the environment layer — a variable is included
iff its name begins with the fixed prefix `LEPTOS_`; the remainder,
lowercased, becomes the (flat, single-segment) key (lib.rs line 154 and
spec section 4.3). -/
def envLayer (vars : List (String × String)) : List (String × String) :=
  vars.filterMap fun p =>
    if "LEPTOS_".data.isPrefixOf p.1.data then
      some (String.mk ((p.1.data.drop 7).map Char.toLower), p.2)
    else none

/-- Modelled from the spec: lookup in the merged configuration space — the
environment layer was added second, so its value wins on key collision
(lib.rs lines 148-155 and spec section 3, MergedConfigSpace). -/
def mergedLookup (base envL : List (String × String)) (k : String) : Option String :=
  match envL.lookup k with
  | some v => some v
  | none => base.lookup k

/-! ## Typed options materializer (lib.rs lines 157-159) -/

/-- Embedding of the serde-derived `Deserialize` for `LeptosOptions` driven
by `settings.try_deserialize()` (lib.rs lines 157-159): every field is
required (there is no `#[serde(default)]`), the first missing field in
declaration order is reported, `env` goes through the derived enum
deserializer, `site_address` must parse as a `host:port` pair, and
`reload_port` must be a decimal number fitting in a `u32`. -/
def LeptosOptions.deserialize (f : String → Option String) : Except String LeptosOptions :=
  match f "output_name" with
  | none => Except.error "missing field `output_name`"
  | some output_name =>
  match f "site_root" with
  | none => Except.error "missing field `site_root`"
  | some site_root =>
  match f "site_pkg_dir" with
  | none => Except.error "missing field `site_pkg_dir`"
  | some site_pkg_dir =>
  match f "env" with
  | none => Except.error "missing field `env`"
  | some env_str =>
  match Env.deserialize env_str with
  | Except.error e => Except.error e
  | Except.ok env =>
  match f "site_address" with
  | none => Except.error "missing field `site_address`"
  | some addr_str =>
  match SocketAddr.parse addr_str with
  | none => Except.error ("invalid socket address syntax: " ++ addr_str)
  | some site_address =>
  match f "reload_port" with
  | none => Except.error "missing field `reload_port`"
  | some port_str =>
  match parseNatList port_str.data with
  | none => Except.error ("invalid type for reload_port: " ++ port_str)
  | some n =>
  if n < 4294967296 then
    Except.ok ⟨output_name, site_root, site_pkg_dir, env, site_address, n⟩
  else Except.error ("invalid value for u32 reload_port: " ++ port_str)

/-! ## The resolution pipeline (lib.rs lines 130-160) -/

/-- Embedding of `get_configuration` (lib.rs lines 130-160).  The outcome
of `fs::read_to_string` is the explicit input `read` (`none` models a read
failure); the process environment snapshot is the explicit input
`envVars`.  Extraction failure yields `configSectionNotFound`, a read
failure yields `configNotFound`, and a deserialization failure is wrapped
in `configError` with its message. -/
def get_configuration (read : Option String) (envVars : List (String × String)) :
    Except LeptosConfigError ConfFile :=
  match read with
  | none => Except.error LeptosConfigError.configNotFound
  | some text =>
    match extractSection text with
    | none => Except.error LeptosConfigError.configSectionNotFound
    | some nt =>
      match LeptosOptions.deserialize (mergedLookup (sectionKVs nt.2) (envLayer envVars)) with
      | Except.error e => Except.error (LeptosConfigError.configError e)
      | Except.ok opts => Except.ok ⟨opts⟩

/-! ## Concrete documents used by the theorems -/

/-- A complete document: the header at line 1 and every field supplied. -/
def c1doc : String :=
  "[package.metadata.leptos]\noutput_name = \"app\"\nsite_root = \"/pkg\"\nsite_pkg_dir = \"pkg\"\nenv = \"DEV\"\nsite_address = \"127.0.0.1:3000\"\nreload_port = 3001"

/-- A document whose first line matches the source's header regex only
through its unescaped-dot wildcards, while the literal header occurs at
line 2. -/
def c2doc : String :=
  "[packageXmetadataXleptos]\n[package.metadata.leptos]\noutput_name = \"app\""

/-- A document whose section supplies only the required `output_name`. -/
def c3doc : String := "[package.metadata.leptos]\noutput_name = \"app\""

/-- A document whose section lacks the required `output_name`. -/
def c6doc : String := "[package.metadata.leptos]\nsite_root = \"/pkg\""

/-! ## Helper lemmas -/

/-- Section extraction fails exactly when the header pattern has no match. -/
theorem extractSection_eq_none_iff (t : String) :
    extractSection t = none ↔ findHeaderStart t.data = none := by
  unfold extractSection
  cases h : findHeaderStart t.data <;> simp [h]

/-! ## The claims -/

/-- C1: for every document base layer and environment snapshot, when the
same key appears in both layers the environment layer's value wins in the
merged configuration; in particular, with base layer `reload_port=3001`
and environment variable `LEPTOS_RELOAD_PORT=9999`, the resolved
`reload_port` is 9999. -/
theorem env_layer_precedence :
    (∀ (base vars : List (String × String)) (k v w : String),
      base.lookup k = some w → (envLayer vars).lookup k = some v →
        mergedLookup base (envLayer vars) k = some v)
    ∧ mergedLookup [("reload_port", "3001")]
        (envLayer [("LEPTOS_RELOAD_PORT", "9999")]) "reload_port" = some "9999"
    ∧ get_configuration (some c1doc) [("LEPTOS_RELOAD_PORT", "9999")] =
        Except.ok ⟨⟨"app", "/pkg", "pkg", Env.DEV, ⟨"127.0.0.1", 3000⟩, 9999⟩⟩ := by
  refine ⟨?_, by decide, by decide⟩
  intro base vars k v w _hb he
  unfold mergedLookup
  rw [he]

/-- C1 witness: the general part applied to the concrete collision of the
claim. -/
theorem env_layer_precedence_witness :
    mergedLookup [("reload_port", "3001")]
      (envLayer [("LEPTOS_RELOAD_PORT", "9999")]) "reload_port" = some "9999" :=
  env_layer_precedence.1 [("reload_port", "3001")] [("LEPTOS_RELOAD_PORT", "9999")]
    "reload_port" "9999" "3001" (by decide) (by decide)

/-- C2: on `c2doc` the first start-of-line occurrence of the literal header
`[package.metadata.leptos]` begins at offset 26 (line 2, so the claim
demands a preserved line count of 1), but the source's regex — whose dots
are unescaped wildcards — matches at offset 0, so the code produces a
preserved line count of 0 and a rewritten section that still starts with
the bogus first line instead of one blank line followed by
`[leptos_options]`. -/
theorem regex_wildcard_header_divergence :
    firstLiteralHeaderStart c2doc.data = some 26
    ∧ (c2doc.data.take 26).count '\n' = 1
    ∧ findHeaderStart c2doc.data = some 0
    ∧ extractSection c2doc =
        some (0, "[packageXmetadataXleptos]\n[leptos_options]\noutput_name = \"app\"") := by
  refine ⟨by decide, by decide, by decide, by decide⟩

/-- C3: resolving a document whose section supplies only `output_name`
does not apply the documented per-field defaults: the serde-derived
deserializer has no `#[serde(default)]` (the defaults live only on the
TypedBuilder derive), so resolution fails with a missing-field error
instead of succeeding with `site_root = "/pkg"` etc. -/
theorem defaults_not_applied_minimal_section :
    get_configuration (some c3doc) [] =
      Except.error (LeptosConfigError.configError "missing field `site_root`")
    ∧ LeptosOptions.deserialize
        (fun k => if k = "output_name" then some "app" else none) =
      Except.error "missing field `site_root`" :=
  ⟨by decide, by decide⟩

/-- C4 counterexample: the lenient string form `"dev"` is rejected by the
derived deserializer for the `env` field instead of being accepted. -/
theorem env_deserialize_rejects_dev :
    Env.deserialize "dev" = Except.error "unknown variant `dev`, expected `PROD` or `DEV`"
    ∧ Env.deserialize "dev" ≠ Except.ok Env.DEV := by
  decide

/-- C4 amended: during materialization the field `env` accepts exactly the
enum's canonical variant names `"PROD"` and `"DEV"`; every other string —
including the lenient forms handled by `Env::from_str` — fails
deserialization rather than silently defaulting to DEV. -/
theorem env_deserialize_exactly_canonical (s : String) (e : Env) :
    Env.deserialize s = Except.ok e ↔
      (s = "PROD" ∧ e = Env.PROD) ∨ (s = "DEV" ∧ e = Env.DEV) := by
  constructor
  · intro h
    unfold Env.deserialize at h
    by_cases h1 : s = "PROD"
    · rw [if_pos h1] at h
      injection h with he
      exact Or.inl ⟨h1, he.symm⟩
    · rw [if_neg h1] at h
      by_cases h2 : s = "DEV"
      · rw [if_pos h2] at h
        injection h with he
        exact Or.inr ⟨h2, he.symm⟩
      · rw [if_neg h2] at h
        exact Except.noConfusion h
  · rintro (⟨hs, he⟩ | ⟨hs, he⟩) <;> subst hs <;> subst he <;> rfl

/-- C4 witness: the amended characterization applied at `"PROD"`. -/
theorem env_deserialize_exactly_canonical_witness :
    Env.deserialize "PROD" = Except.ok Env.PROD :=
  (env_deserialize_exactly_canonical "PROD" Env.PROD).mpr (Or.inl ⟨rfl, rfl⟩)

/-- C5: `get_configuration` returns `ConfigNotFound` exactly when the
source document cannot be read, and `ConfigSectionNotFound` exactly when
the document is read but no line matches the header pattern; the two error
kinds are distinct (and in the missing-section case an error — not a
synthesized default section — is returned). -/
theorem error_kinds_exact (read : Option String) (envVars : List (String × String)) :
    (get_configuration read envVars = Except.error LeptosConfigError.configNotFound
      ↔ read = none)
    ∧ (get_configuration read envVars = Except.error LeptosConfigError.configSectionNotFound
      ↔ ∃ text, read = some text ∧ findHeaderStart text.data = none)
    ∧ LeptosConfigError.configNotFound ≠ LeptosConfigError.configSectionNotFound := by
  refine ⟨?_, ?_, by decide⟩
  · cases read with
    | none => simp [get_configuration]
    | some t =>
      cases hx : extractSection t with
      | none => simp [get_configuration, hx]
      | some nt =>
        cases hd : LeptosOptions.deserialize (mergedLookup (sectionKVs nt.2) (envLayer envVars)) with
        | error e => simp [get_configuration, hx, hd]
        | ok opts => simp [get_configuration, hx, hd]
  · cases read with
    | none => simp [get_configuration]
    | some t =>
      cases hx : extractSection t with
      | none =>
        have hf : findHeaderStart t.data = none := (extractSection_eq_none_iff t).mp hx
        simp [get_configuration, hx, hf]
      | some nt =>
        have hne : ¬ findHeaderStart t.data = none := by
          intro hn
          rw [← extractSection_eq_none_iff t] at hn
          rw [hx] at hn
          exact Option.noConfusion hn
        cases hd : LeptosOptions.deserialize (mergedLookup (sectionKVs nt.2) (envLayer envVars)) with
        | error e => simp [get_configuration, hx, hd, hne]
        | ok opts => simp [get_configuration, hx, hd, hne]

/-- C5 witness: a failed read yields exactly `ConfigNotFound`. -/
theorem error_kinds_exact_witness :
    get_configuration none [] = Except.error LeptosConfigError.configNotFound :=
  (error_kinds_exact none []).1.mpr rfl

/-- C6: for every merged configuration space lacking the key
`output_name`, materialization fails and `get_configuration` surfaces the
failure as `ConfigError` with a descriptive message; no silently-defaulted
empty string is produced. -/
theorem missing_output_name_config_error (text : String)
    (envVars : List (String × String)) (nt : Nat × String)
    (hx : extractSection text = some nt)
    (hm : mergedLookup (sectionKVs nt.2) (envLayer envVars) "output_name" = none) :
    get_configuration (some text) envVars =
      Except.error (LeptosConfigError.configError "missing field `output_name`") := by
  have hd : LeptosOptions.deserialize (mergedLookup (sectionKVs nt.2) (envLayer envVars)) =
      Except.error "missing field `output_name`" := by
    unfold LeptosOptions.deserialize
    rw [hm]
  simp [get_configuration, hx, hd]

/-- C6 witness: a section supplying only `site_root` resolves to
`ConfigError` over the missing `output_name`. -/
theorem missing_output_name_config_error_witness :
    get_configuration (some c6doc) [] =
      Except.error (LeptosConfigError.configError "missing field `output_name`") :=
  missing_output_name_config_error c6doc [] (0, "[leptos_options]\nsite_root = \"/pkg\"")
    (by decide) (by decide)

/-- C7 counterexample: the `From<&Result<String, VarError>>` path cited by
the claim does not map every unrecognized present string to DEV — on
`Ok("staging")` it panics (modelled as `none`) instead. -/
theorem from_var_result_panics_on_unrecognized :
    Env.from_var_result (Except.ok "staging") = none
    ∧ Env.from_var_result (Except.ok "staging") ≠ some Env.DEV := by
  decide

/-- C7 amended: `Env::from_str` is a total pure function that maps the
recognized case-insensitive forms accordingly, maps every other string to
DEV and never returns an error; the `From<&Result<String, VarError>>` path
maps absent input (a variable read error) to DEV but panics on present
unrecognized strings rather than mapping them to DEV. -/
theorem lenient_classifier_amended :
    (∀ s : String, (Env.from_str s).isOk = true)
    ∧ (∀ s : String, lowerStr s = "dev" ∨ lowerStr s = "development" →
        Env.from_str s = Except.ok Env.DEV)
    ∧ (∀ s : String, lowerStr s = "prod" ∨ lowerStr s = "production" →
        Env.from_str s = Except.ok Env.PROD)
    ∧ (∀ s : String,
        lowerStr s ∉ (["dev", "development", "prod", "production"] : List String) →
        Env.from_str s = Except.ok Env.DEV)
    ∧ (∀ e : VarError, Env.from_var_result (Except.error e) = some Env.DEV)
    ∧ (∀ s : String,
        lowerStr s ∉ (["dev", "development", "prod", "production"] : List String) →
        Env.from_var_result (Except.ok s) = none) := by
  refine ⟨?_, ?_, ?_, ?_, ?_, ?_⟩
  · intro s
    simp only [Env.from_str]
    split_ifs <;> rfl
  · intro s h
    simp only [Env.from_str]
    rcases h with h | h <;> rw [h] <;> decide
  · intro s h
    simp only [Env.from_str]
    rcases h with h | h <;> rw [h] <;> decide
  · intro s h
    simp only [List.mem_cons, List.not_mem_nil, or_false, not_or] at h
    obtain ⟨h1, h2, h3, h4⟩ := h
    simp only [Env.from_str]
    rw [if_neg h1, if_neg h2, if_neg h3, if_neg h4]
  · intro e
    rfl
  · intro s h
    simp only [List.mem_cons, List.not_mem_nil, or_false, not_or] at h
    obtain ⟨h1, h2, h3, h4⟩ := h
    simp only [Env.from_var_result]
    rw [if_neg h1, if_neg h2, if_neg h3, if_neg h4]

/-- C7 witness: the amended statement at concrete inputs — an unrecognized
string under `from_str`, an absent variable, and an unrecognized present
string under the `Result` path. -/
theorem lenient_classifier_amended_witness :
    Env.from_str "staging" = Except.ok Env.DEV
    ∧ Env.from_var_result (Except.error VarError.notPresent) = some Env.DEV
    ∧ Env.from_var_result (Except.ok "staging") = none :=
  ⟨lenient_classifier_amended.2.2.2.1 "staging" (by decide),
   lenient_classifier_amended.2.2.2.2.1 VarError.notPresent,
   lenient_classifier_amended.2.2.2.2.2 "staging" (by decide)⟩

/-- C8: the strict `TryFrom<String>` classifier accepts exactly the
case-insensitive strings dev, development, prod, production, and for every
other string returns a descriptive error built from the (lowercased)
offending value instead of defaulting. -/
theorem try_from_strict (s : String) :
    (lowerStr s = "dev" → Env.try_from s = Except.ok Env.DEV)
    ∧ (lowerStr s = "development" → Env.try_from s = Except.ok Env.DEV)
    ∧ (lowerStr s = "prod" → Env.try_from s = Except.ok Env.PROD)
    ∧ (lowerStr s = "production" → Env.try_from s = Except.ok Env.PROD)
    ∧ (lowerStr s ∉ (["dev", "development", "prod", "production"] : List String) →
        Env.try_from s = Except.error
          (lowerStr s ++ " is not a supported environment. Use either `dev` or `production`.")) := by
  refine ⟨?_, ?_, ?_, ?_, ?_⟩
  · intro h; simp only [Env.try_from]; rw [h]; decide
  · intro h; simp only [Env.try_from]; rw [h]; decide
  · intro h; simp only [Env.try_from]; rw [h]; decide
  · intro h; simp only [Env.try_from]; rw [h]; decide
  · intro h
    simp only [List.mem_cons, List.not_mem_nil, or_false, not_or] at h
    obtain ⟨h1, h2, h3, h4⟩ := h
    simp only [Env.try_from]
    rw [if_neg h1, if_neg h2, if_neg h3, if_neg h4]

/-- C8 witness: acceptance of `"PROD"` (case-insensitively) and rejection
of `"staging"` with the descriptive message. -/
theorem try_from_strict_witness :
    Env.try_from "PROD" = Except.ok Env.PROD
    ∧ Env.try_from "staging" = Except.error
        (lowerStr "staging" ++ " is not a supported environment. Use either `dev` or `production`.") :=
  ⟨(try_from_strict "PROD").2.2.1 (by decide),
   (try_from_strict "staging").2.2.2.2 (by decide)⟩

/-- C9: resolution is deterministic — two invocations of
`get_configuration` on the same document text and the same environment
snapshot produce identical results (the pipeline is a pure function of its
two inputs). -/
theorem get_configuration_deterministic (read : Option String)
    (envVars : List (String × String)) (r1 r2 : Except LeptosConfigError ConfFile)
    (h1 : r1 = get_configuration read envVars)
    (h2 : r2 = get_configuration read envVars) : r1 = r2 :=
  h1.trans h2.symm

/-- C9 witness: two resolutions of the same concrete document coincide. -/
theorem get_configuration_deterministic_witness :
    get_configuration (some c3doc) [] = get_configuration (some c3doc) [] :=
  get_configuration_deterministic (some c3doc) [] _ _ rfl rfl

/-- C10: the three string-to-Env coercion paths disagree on every
unrecognized input — `FromStr` returns DEV, `TryFrom<String>` returns a
descriptive error, and `From<&str>` panics (modelled as `none`), so the
panic branch is reachable. -/
theorem three_coercion_paths_disagree (s : String)
    (h : lowerStr s ∉ (["dev", "development", "prod", "production"] : List String)) :
    Env.from_str s = Except.ok Env.DEV
    ∧ Env.try_from s = Except.error
        (lowerStr s ++ " is not a supported environment. Use either `dev` or `production`.")
    ∧ Env.from_ref_str s = none := by
  simp only [List.mem_cons, List.not_mem_nil, or_false, not_or] at h
  obtain ⟨h1, h2, h3, h4⟩ := h
  refine ⟨?_, ?_, ?_⟩
  · simp only [Env.from_str]
    rw [if_neg h1, if_neg h2, if_neg h3, if_neg h4]
  · simp only [Env.try_from]
    rw [if_neg h1, if_neg h2, if_neg h3, if_neg h4]
  · simp only [Env.from_ref_str]
    rw [if_neg h1, if_neg h2, if_neg h3, if_neg h4]

/-- C10 witness: the disagreement exhibited at the concrete unrecognized
input `"staging"`, showing the panic branch of `From<&str>` reachable. -/
theorem three_coercion_paths_disagree_witness :
    Env.from_str "staging" = Except.ok Env.DEV
    ∧ Env.try_from "staging" = Except.error
        (lowerStr "staging" ++ " is not a supported environment. Use either `dev` or `production`.")
    ∧ Env.from_ref_str "staging" = none :=
  three_coercion_paths_disagree "staging" (by decide)

end LeptosConfig
